import Mathlib

/-!
Verification of the LTSA REST API wrapper (`src/api/main.py`).

The repository is a thin HTTP shim around an external model-checking jar:
each endpoint writes the request's specification text to a temporary file,
spawns `java -jar ltsp.jar <tempfile> <mode flags>` with a 30-second
timeout, and relays the subprocess's exit status / stdout / stderr as a
JSON `LTSResponse`.  We embed the wrapper as pure functions, making the
environment's contribution explicit: the fresh path picked by
`tempfile.NamedTemporaryFile`, whether writing to it raises, and the
observed behavior of `subprocess.run`.  Each call also produces a trace of
its observable actions (file creation, write, spawn, unlink, ...), over
which the lifecycle and ordering properties are stated.
-/

namespace Anvilts

/-- Response body model `LTSResponse` (main.py lines 40-43): `success`,
`output`, and an optional `error`. -/
structure LTSResponse where
  success : Bool
  output : String
  error : Option String
  deriving Repr, DecidableEq

/-- Request body model `LTSRequest` (main.py lines 33-35): `content` is a
required string, `process` is `Optional[str]` (so it may be `None`) with
default value `"DEFAULT"` when the field is absent. -/
structure LTSRequest where
  content : String
  process : Option String
  deriving Repr, DecidableEq

/-- Request body model `LTLRequest` (main.py lines 37-38): extends
`LTSRequest` with a required `property` field. -/
structure LTLRequest extends LTSRequest where
  property : String
  deriving Repr, DecidableEq

/-- `fastapi.HTTPException(status_code=..., detail=...)` as raised by
`execute_ltsp_command`'s `except` clauses. -/
structure HTTPException where
  status_code : Nat
  detail : String
  deriving Repr, DecidableEq

/-- An error leaving `execute_ltsp_command`: either an `HTTPException`
raised by one of its `except` clauses, or an exception that propagates
unhandled.  The write to the temporary file (main.py lines 51-53) happens
before the `try` block, so an exception raised there is of the second
kind: no clause converts it and the `finally` cleanup never runs. -/
inductive RequestError where
  | http (e : HTTPException)
  | unhandled (msg : String)
  deriving Repr, DecidableEq

/-- The externally observed behavior of the `subprocess.run` call in
`execute_ltsp_command` (main.py lines 62-67): it either completes with an
exit status and captured stdout/stderr, or raises
`subprocess.TimeoutExpired`, `FileNotFoundError`, or some other
exception. -/
inductive SubprocessOutcome where
  | completed (returncode : Int) (stdout stderr : String)
  | timedOut
  | fileNotFound
  | otherError (msg : String)
  deriving Repr, DecidableEq

/-- Observable actions performed during one call of the wrapper, in
order.  A `spawn` records the full argument vector handed to
`subprocess.run` (elements are `Option String` because the Python list
may contain `None` when `process` is explicitly null) and the timeout
passed with it. -/
inductive Event where
  | createTemp (path : String)
  | writeTemp (path : String) (content : String)
  | spawn (command : List (Option String)) (timeout : Nat)
  | capture (stdout stderr : String)
  | unlink (path : String)
  | raiseErr (e : RequestError)
  | respond (r : LTSResponse)
  deriving Repr, DecidableEq

/-- Shallow embedding of `execute_ltsp_command` (main.py lines 46-94).

`tempPath` is the fresh name chosen by `tempfile.NamedTemporaryFile`;
`writeError = some msg` means `temp_file.write(lts_content)` raised (for
example `UnicodeEncodeError` on a lone surrogate, or `OSError` on a full
disk) — that happens outside the `try`, so the exception propagates raw
and the `finally` that unlinks the file is never entered.  When the write
succeeds, the command `["java", "-jar", LTSP_JAR_PATH, temp_file_path] +
args` is run with `timeout=30`; a completed run is relayed as an
`LTSResponse` with `success = (returncode == 0)`, `output = stdout` and
`error = stderr if stderr else None`; `TimeoutExpired` becomes HTTP 408,
`FileNotFoundError` and any other exception become HTTP 500; in all these
cases the `finally` block unlinks the temporary file before the function
exits. -/
def execute_ltsp_command (jarPath tempPath : String) (writeError : Option String)
    (outcome : SubprocessOutcome) (lts_content : String) (args : List (Option String)) :
    Except RequestError LTSResponse × List Event :=
  match writeError with
  | some msg =>
      (Except.error (.unhandled msg), [.createTemp tempPath, .raiseErr (.unhandled msg)])
  | none =>
    let command : List (Option String) :=
      [some "java", some "-jar", some jarPath, some tempPath] ++ args
    let pre : List Event :=
      [.createTemp tempPath, .writeTemp tempPath lts_content, .spawn command 30]
    match outcome with
    | .completed rc out err =>
        let resp : LTSResponse :=
          { success := rc == 0,
            output := out,
            error := if err = "" then none else some err }
        (Except.ok resp, pre ++ [.capture out err, .unlink tempPath, .respond resp])
    | .timedOut =>
        let e : HTTPException := ⟨408, "Command execution timed out"⟩
        (Except.error (.http e), pre ++ [.unlink tempPath, .raiseErr (.http e)])
    | .fileNotFound =>
        let e : HTTPException :=
          ⟨500, "Java or ltsp.jar not found. Please ensure Java is installed and ltsp.jar exists at "
                ++ jarPath⟩
        (Except.error (.http e), pre ++ [.unlink tempPath, .raiseErr (.http e)])
    | .otherError msg =>
        let e : HTTPException := ⟨500, "Internal server error: " ++ msg⟩
        (Except.error (.http e), pre ++ [.unlink tempPath, .raiseErr (.http e)])

/-- Endpoint `POST /parse` (main.py lines 114-121): args `["-b", "parse"]`. -/
def parse (jarPath tempPath : String) (writeError : Option String)
    (outcome : SubprocessOutcome) (request : LTSRequest) :
    Except RequestError LTSResponse × List Event :=
  execute_ltsp_command jarPath tempPath writeError outcome request.content
    [some "-b", some "parse"]

/-- Endpoint `POST /compile` (main.py lines 123-131): args
`["-b", "compile", "-p", request.process]`. -/
def compile (jarPath tempPath : String) (writeError : Option String)
    (outcome : SubprocessOutcome) (request : LTSRequest) :
    Except RequestError LTSResponse × List Event :=
  execute_ltsp_command jarPath tempPath writeError outcome request.content
    [some "-b", some "compile", some "-p", request.process]

/-- Endpoint `POST /compose` (main.py lines 133-141): args
`["-b", "compose", "-p", request.process]`. -/
def compose (jarPath tempPath : String) (writeError : Option String)
    (outcome : SubprocessOutcome) (request : LTSRequest) :
    Except RequestError LTSResponse × List Event :=
  execute_ltsp_command jarPath tempPath writeError outcome request.content
    [some "-b", some "compose", some "-p", request.process]

/-- Endpoint `POST /check/safety` (main.py lines 143-151): args
`["-c", "safety", "-p", request.process]`. -/
def check_safety (jarPath tempPath : String) (writeError : Option String)
    (outcome : SubprocessOutcome) (request : LTSRequest) :
    Except RequestError LTSResponse × List Event :=
  execute_ltsp_command jarPath tempPath writeError outcome request.content
    [some "-c", some "safety", some "-p", request.process]

/-- Endpoint `POST /check/progress` (main.py lines 153-161): args
`["-c", "progress", "-p", request.process]`. -/
def check_progress (jarPath tempPath : String) (writeError : Option String)
    (outcome : SubprocessOutcome) (request : LTSRequest) :
    Except RequestError LTSResponse × List Event :=
  execute_ltsp_command jarPath tempPath writeError outcome request.content
    [some "-c", some "progress", some "-p", request.process]

/-- Endpoint `POST /check/ltl` (main.py lines 163-171): args
`["-c", "ltl_property", "-p", request.process, "-l", request.property]`. -/
def check_ltl (jarPath tempPath : String) (writeError : Option String)
    (outcome : SubprocessOutcome) (request : LTLRequest) :
    Except RequestError LTSResponse × List Event :=
  execute_ltsp_command jarPath tempPath writeError outcome request.content
    [some "-c", some "ltl_property", some "-p", request.process,
     some "-l", some request.property]

/-- A request to one of the six analyzer endpoints, with its parsed body. -/
inductive ApiRequest where
  | parse (r : LTSRequest)
  | compile (r : LTSRequest)
  | compose (r : LTSRequest)
  | check_safety (r : LTSRequest)
  | check_progress (r : LTSRequest)
  | check_ltl (r : LTLRequest)
  deriving Repr, DecidableEq

/-- Dispatch a request to its endpoint handler. -/
def handle (jarPath tempPath : String) (writeError : Option String)
    (outcome : SubprocessOutcome) :
    ApiRequest → Except RequestError LTSResponse × List Event
  | .parse r => parse jarPath tempPath writeError outcome r
  | .compile r => compile jarPath tempPath writeError outcome r
  | .compose r => compose jarPath tempPath writeError outcome r
  | .check_safety r => check_safety jarPath tempPath writeError outcome r
  | .check_progress r => check_progress jarPath tempPath writeError outcome r
  | .check_ltl r => check_ltl jarPath tempPath writeError outcome r

/-- One invocation of the service: the request together with the
environment's behavior during it (the fresh temp path, whether the write
raised, what the subprocess did). -/
structure Invocation where
  req : ApiRequest
  tempPath : String
  writeError : Option String
  outcome : SubprocessOutcome
  deriving Repr, DecidableEq

/-- The service handling a sequence of invocations.  The module keeps no
state between requests (main.py has no mutable globals touched by the
handlers), so each response is produced from that invocation alone. -/
def serve (jarPath : String) (history : List Invocation) :
    List (Except RequestError LTSResponse) :=
  history.map fun inv => (handle jarPath inv.tempPath inv.writeError inv.outcome inv.req).1

/-- Response body of `GET /health` (main.py lines 187-192). -/
structure HealthResponse where
  status : String
  ltsp_jar_exists : Bool
  ltsp_jar_path : String
  java_available : Bool
  deriving Repr, DecidableEq

/-- Shallow embedding of `health_check` (main.py lines 173-192).
`jar_exists` is the result of `os.path.exists(LTSP_JAR_PATH)`;
`javaRunOk` says whether `subprocess.run(["java", "-version"], ...)`
completed without raising - `java_available` starts `False` and is set to
`True` only after that call returns. -/
def health_check (jarPath : String) (jar_exists : Bool) (javaRunOk : Bool) : HealthResponse :=
  let java_available := if javaRunOk then true else false
  { status := if jar_exists && java_available then "healthy" else "unhealthy",
    ltsp_jar_exists := jar_exists,
    ltsp_jar_path := jarPath,
    java_available := java_available }

/-- A JSON body field as received by pydantic: absent from the object,
explicitly `null`, or carrying a value. -/
inductive JsonField (α : Type) where
  | absent
  | null
  | given (a : α)
  deriving Repr, DecidableEq

/-- pydantic validation of an `LTSRequest` body (main.py lines 33-35):
`content` is a required `str` (absent or null fails validation);
`process` is `Optional[str]` defaulting to `"DEFAULT"` when the field is
absent, and `None` when it is explicitly null. -/
def validateLTSRequest (content processField : JsonField String) : Option LTSRequest :=
  match content, processField with
  | .given c, .absent => some ⟨c, some "DEFAULT"⟩
  | .given c, .null => some ⟨c, none⟩
  | .given c, .given p => some ⟨c, some p⟩
  | _, _ => none

/-- pydantic validation of an `LTLRequest` body (main.py lines 37-38):
the `LTSRequest` fields as above plus a required `property` string. -/
def validateLTLRequest (content processField propertyField : JsonField String) :
    Option LTLRequest :=
  match validateLTSRequest content processField, propertyField with
  | some r, .given l => some ⟨r, l⟩
  | _, _ => none

/-- The argument vectors handed to `subprocess.run` during a trace, in
order. -/
def spawnedCommands : List Event → List (List (Option String))
  | [] => []
  | .spawn cmd _ :: es => cmd :: spawnedCommands es
  | _ :: es => spawnedCommands es

/-- The timeouts handed to `subprocess.run` during a trace, in order. -/
def spawnedTimeouts : List Event → List Nat
  | [] => []
  | .spawn _ t :: es => t :: spawnedTimeouts es
  | _ :: es => spawnedTimeouts es

/-- C1: when the subprocess call completes without exception, the
response's `success` is true exactly when the exit status is 0, `output`
is the captured stdout, and `error` carries the captured stderr as
diagnostic text. -/
theorem C1_success_iff_exit_zero (jar temp c : String) (args : List (Option String))
    (rc : Int) (out err : String) :
    ∃ resp : LTSResponse,
      (execute_ltsp_command jar temp none (.completed rc out err) c args).1 = .ok resp
      ∧ (resp.success = true ↔ rc = 0)
      ∧ resp.output = out
      ∧ resp.error.getD "" = err := by
  refine ⟨_, rfl, ?_, rfl, ?_⟩
  · simp [execute_ltsp_command]
  · by_cases h : err = "" <;> simp [execute_ltsp_command, h]

/-- C2: every endpoint invokes the analyzer on the temp spec file's path
followed by exactly its mode flags: `-b parse` for /parse,
`-b compile -p <process>` for /compile, `-b compose -p <process>` for
/compose, `-c safety -p <process>` for /check/safety,
`-c progress -p <process>` for /check/progress, and
`-c ltl_property -p <process> -l <property>` for /check/ltl. -/
theorem C2_mode_flags_per_endpoint (jar temp c p l : String) (w : SubprocessOutcome) :
    spawnedCommands (handle jar temp none w (.parse ⟨c, some p⟩)).2 =
      [[some "java", some "-jar", some jar, some temp] ++ ["-b", "parse"].map some]
  ∧ spawnedCommands (handle jar temp none w (.compile ⟨c, some p⟩)).2 =
      [[some "java", some "-jar", some jar, some temp] ++ ["-b", "compile", "-p", p].map some]
  ∧ spawnedCommands (handle jar temp none w (.compose ⟨c, some p⟩)).2 =
      [[some "java", some "-jar", some jar, some temp] ++ ["-b", "compose", "-p", p].map some]
  ∧ spawnedCommands (handle jar temp none w (.check_safety ⟨c, some p⟩)).2 =
      [[some "java", some "-jar", some jar, some temp] ++ ["-c", "safety", "-p", p].map some]
  ∧ spawnedCommands (handle jar temp none w (.check_progress ⟨c, some p⟩)).2 =
      [[some "java", some "-jar", some jar, some temp] ++ ["-c", "progress", "-p", p].map some]
  ∧ spawnedCommands (handle jar temp none w (.check_ltl ⟨⟨c, some p⟩, l⟩)).2 =
      [[some "java", some "-jar", some jar, some temp] ++
        ["-c", "ltl_property", "-p", p, "-l", l].map some] := by
  cases w <;> exact ⟨rfl, rfl, rfl, rfl, rfl, rfl⟩

/-- C3: every subprocess invocation carries a 30-second timeout; a timeout
is reported as the distinct HTTP 408 failure "Command execution timed
out"; an analyzer run that completes - with any exit status, zero or not -
yields a normal `LTSResponse`, and the other exception paths yield HTTP
500, so 408 is produced only for timeouts. -/
theorem C3_timeout_bounded_and_distinct (jar temp c : String) (args : List (Option String)) :
    (∀ w : SubprocessOutcome,
      spawnedTimeouts (execute_ltsp_command jar temp none w c args).2 = [30])
  ∧ (execute_ltsp_command jar temp none .timedOut c args).1 =
      .error (.http ⟨408, "Command execution timed out"⟩)
  ∧ (∀ (rc : Int) (out err : String), ∃ resp : LTSResponse,
      (execute_ltsp_command jar temp none (.completed rc out err) c args).1 = .ok resp)
  ∧ (execute_ltsp_command jar temp none .fileNotFound c args).1 =
      .error (.http ⟨500,
        "Java or ltsp.jar not found. Please ensure Java is installed and ltsp.jar exists at "
        ++ jar⟩)
  ∧ (∀ msg : String, (execute_ltsp_command jar temp none (.otherError msg) c args).1 =
      .error (.http ⟨500, "Internal server error: " ++ msg⟩)) :=
  ⟨fun w => by cases w <;> rfl, rfl, fun rc out err => ⟨_, rfl⟩, rfl, fun msg => rfl⟩

/-- C4: the claim that the temp file is removed on every exit path fails
on the code.  The `try/finally` covers only the subprocess phase
(main.py lines 55-94); the temp file is created and written on lines
51-53, before the `try`, so when `temp_file.write` raises (for instance
`UnicodeEncodeError` on content holding a lone surrogate, which JSON can
deliver) the file has been created but is never unlinked.  On every exit
path where the write succeeds - success, analyzer failure, timeout,
`FileNotFoundError`, any other subprocess-phase exception - the file is
created, written before the spawn, and unlinked, as the claim intends. -/
theorem C4_unlink_misses_write_failure :
    (Event.createTemp "/tmp/tmp1a2b3c.lts" ∈
      (execute_ltsp_command "ltsp.jar" "/tmp/tmp1a2b3c.lts"
        (some "UnicodeEncodeError: surrogates not allowed")
        (.completed 0 "" "") "P = STOP." [some "-b", some "parse"]).2)
  ∧ (Event.unlink "/tmp/tmp1a2b3c.lts" ∉
      (execute_ltsp_command "ltsp.jar" "/tmp/tmp1a2b3c.lts"
        (some "UnicodeEncodeError: surrogates not allowed")
        (.completed 0 "" "") "P = STOP." [some "-b", some "parse"]).2)
  ∧ (∀ (jar temp c : String) (args : List (Option String)) (w : SubprocessOutcome),
      ((execute_ltsp_command jar temp none w c args).2).take 2 =
        [Event.createTemp temp, Event.writeTemp temp c]
      ∧ Event.unlink temp ∈ (execute_ltsp_command jar temp none w c args).2) := by
  refine ⟨by decide, by decide, fun jar temp c args w => ?_⟩
  cases w <;> exact ⟨rfl, by simp [execute_ltsp_command]⟩

/-- C5: the health probe surfaces the jar-on-disk check and the
Java-invocability check as the two separate booleans `ltsp_jar_exists`
and `java_available`, each reporting its own probe, and each can be true
while the other is false. -/
theorem C5_health_probes_independent (jar : String) (je jv : Bool) :
    ((health_check jar je jv).ltsp_jar_exists = je
      ∧ (health_check jar je jv).java_available = jv)
  ∧ ((health_check jar true false).ltsp_jar_exists = true
      ∧ (health_check jar true false).java_available = false)
  ∧ ((health_check jar false true).ltsp_jar_exists = false
      ∧ (health_check jar false true).java_available = true) := by
  cases jv <;> exact ⟨⟨rfl, rfl⟩, ⟨rfl, rfl⟩, rfl, rfl⟩

/-- C6: on the normal path the call performs exactly, in order: create the
temp file, write the specification content to it, spawn the analyzer on
that same path with the derived arguments, capture its output, unlink the
temp file, and only then deliver the JSON response. -/
theorem C6_pipeline_order (jar temp c : String) (args : List (Option String))
    (rc : Int) (out err : String) :
    ∃ resp : LTSResponse,
      execute_ltsp_command jar temp none (.completed rc out err) c args =
        (.ok resp,
         [.createTemp temp, .writeTemp temp c,
          .spawn ([some "java", some "-jar", some jar, some temp] ++ args) 30,
          .capture out err, .unlink temp, .respond resp]) :=
  ⟨_, rfl⟩

/-- C8: in a response from a completed run, `error` is `None` exactly when
stderr is empty and otherwise is exactly the stderr text, independently of
the exit status; a zero-exit run with nonempty stderr has `success = true`
and `error` set. -/
theorem C8_error_none_iff_stderr_empty (jar temp c : String) (args : List (Option String))
    (rc rc' : Int) (out err : String) :
    ∃ resp resp' respW : LTSResponse,
      (execute_ltsp_command jar temp none (.completed rc out err) c args).1 = .ok resp
      ∧ (execute_ltsp_command jar temp none (.completed rc' out err) c args).1 = .ok resp'
      ∧ (resp.error = none ↔ err = "")
      ∧ (∀ s : String, resp.error = some s ↔ err = s ∧ ¬s = "")
      ∧ resp'.error = resp.error
      ∧ (execute_ltsp_command jar temp none (.completed 0 out "warning") c args).1 = .ok respW
      ∧ respW.success = true
      ∧ respW.error = some "warning" := by
  refine ⟨_, _, _, rfl, rfl, ?_, ?_, rfl, rfl, rfl, rfl⟩
  · by_cases h : err = "" <;> simp [h]
  · intro s
    by_cases h : err = ""
    · simp [h]
      exact fun h' => h'.symm
    · simp [h]
      rintro rfl
      exact h

/-- The response value of a handler never depends on the temporary file's
path: that path only reaches the spawned command and the trace, not the
`LTSResponse` or the raised exception. -/
lemma handle_fst_indep_of_tempPath (jar t t' : String) (w : Option String)
    (o : SubprocessOutcome) (r : ApiRequest) :
    (handle jar t w o r).1 = (handle jar t' w o r).1 := by
  cases r <;> cases w <;> cases o <;> rfl

/-- C7: request handling is stateless and deterministic: two invocations of
the same endpoint, anywhere in any two histories, with equal payloads,
equal write behavior and equal observed subprocess behavior produce equal
responses, whatever requests came before and whatever temp paths the OS
handed out. -/
theorem C7_stateless_deterministic (jar : String) (h1 h2 : List Invocation)
    (i j : Nat) (a b : Invocation)
    (hi : h1[i]? = some a) (hj : h2[j]? = some b)
    (hreq : a.req = b.req) (hw : a.writeError = b.writeError)
    (ho : a.outcome = b.outcome) :
    (serve jar h1)[i]? = (serve jar h2)[j]? := by
  have key : (handle jar a.tempPath a.writeError a.outcome a.req).1
      = (handle jar b.tempPath b.writeError b.outcome b.req).1 := by
    rw [hreq, hw, ho]
    exact handle_fst_indep_of_tempPath jar a.tempPath b.tempPath b.writeError b.outcome b.req
  simp only [serve, List.getElem?_map, hi, hj, Option.map_some']
  exact congrArg some key

/-- Witness for C7: a /parse request handled first in one history and
second in another, with different temp paths, gets the same response. -/
theorem C7_stateless_deterministic_witness :
    (serve "ltsp.jar"
      [⟨.parse ⟨"P = STOP.", some "DEFAULT"⟩, "/tmp/a.lts", none, .completed 0 "ok" ""⟩])[0]?
  = (serve "ltsp.jar"
      [⟨.check_safety ⟨"Q = (a -> Q).", some "SYS"⟩, "/tmp/q.lts", none, .completed 1 "" "err"⟩,
       ⟨.parse ⟨"P = STOP.", some "DEFAULT"⟩, "/tmp/b.lts", none, .completed 0 "ok" ""⟩])[1]? :=
  C7_stateless_deterministic "ltsp.jar" _ _ 0 1
    ⟨.parse ⟨"P = STOP.", some "DEFAULT"⟩, "/tmp/a.lts", none, .completed 0 "ok" ""⟩
    ⟨.parse ⟨"P = STOP.", some "DEFAULT"⟩, "/tmp/b.lts", none, .completed 0 "ok" ""⟩
    rfl rfl rfl rfl rfl

/-- C9: for /compile, /compose, /check/safety, /check/progress and
/check/ltl, a body that omits the `process` field validates to a request
whose process is the string "DEFAULT", so the analyzer is spawned with
`-p` followed by "DEFAULT", a non-empty argument. -/
theorem C9_process_defaults (jar temp c l : String) (w : SubprocessOutcome) :
    ∃ (r : LTSRequest) (rl : LTLRequest),
      validateLTSRequest (.given c) .absent = some r
      ∧ validateLTLRequest (.given c) .absent (.given l) = some rl
      ∧ r.process = some "DEFAULT"
      ∧ rl.process = some "DEFAULT"
      ∧ spawnedCommands (handle jar temp none w (.compile r)).2 =
          [[some "java", some "-jar", some jar, some temp] ++
            ["-b", "compile", "-p", "DEFAULT"].map some]
      ∧ spawnedCommands (handle jar temp none w (.compose r)).2 =
          [[some "java", some "-jar", some jar, some temp] ++
            ["-b", "compose", "-p", "DEFAULT"].map some]
      ∧ spawnedCommands (handle jar temp none w (.check_safety r)).2 =
          [[some "java", some "-jar", some jar, some temp] ++
            ["-c", "safety", "-p", "DEFAULT"].map some]
      ∧ spawnedCommands (handle jar temp none w (.check_progress r)).2 =
          [[some "java", some "-jar", some jar, some temp] ++
            ["-c", "progress", "-p", "DEFAULT"].map some]
      ∧ spawnedCommands (handle jar temp none w (.check_ltl rl)).2 =
          [[some "java", some "-jar", some jar, some temp] ++
            ["-c", "ltl_property", "-p", "DEFAULT", "-l", l].map some]
      ∧ 0 < "DEFAULT".length := by
  cases w <;>
    exact ⟨⟨c, some "DEFAULT"⟩, ⟨⟨c, some "DEFAULT"⟩, l⟩,
      rfl, rfl, rfl, rfl, rfl, rfl, rfl, rfl, rfl, by decide⟩

/-- C10: the health probe's aggregate `status` is "healthy" exactly when
both `ltsp_jar_exists` and `java_available` are true, and "unhealthy"
otherwise. -/
theorem C10_health_status_aggregate (jar : String) (je jv : Bool) :
    ((health_check jar je jv).status = "healthy"
      ↔ ((health_check jar je jv).ltsp_jar_exists = true
          ∧ (health_check jar je jv).java_available = true))
  ∧ ((health_check jar je jv).status = "unhealthy"
      ↔ ¬((health_check jar je jv).ltsp_jar_exists = true
          ∧ (health_check jar je jv).java_available = true)) := by
  cases je <;> cases jv <;> simp [health_check]

end Anvilts
